import Mathlib

/-!
Shallow embedding of the `raug-client-lua` bridge layer.

The embedding covers `src/graph.rs` (value coercion, operator metamethods,
node replacement, mixer channel assignment) and `src/client.rs`
(`connect_inputs_and_outputs`, the `dac` built-in and registered
procedure calls).

Modelling conventions:
- The remote transport is a mock oracle: `Client.oracle n op` is the
  response the remote endpoint gives to the `n`-th request issued over
  the session when that request is `op`.  `Client.request` appends the
  request to a trace of issued requests, so "issues exactly these
  requests" is stated as an equation on the trace.
- Rust `Result`/`?` is `Except Err`, threaded by hand together with the
  trace: every operation maps `(args, trace)` to `(Except Err result, trace)`,
  and the trace is returned even on the error path so that "no request was
  issued" is statable.
- Rust panics (`.unwrap()`, `assert_eq!`) abort the surrounding operation;
  they are modelled as dedicated `Err` constructors.
- IEEE-754 floats are not given arithmetic semantics (no claim needs them):
  an `f64` is an opaque 64-bit pattern, and the result of a Rust `as f32`
  cast is represented symbolically by its source value.
- Integer casts (`i64 as u32`, `usize as u32`, `i64 as usize`) are modelled
  arithmetically by reduction modulo `2^32` / `2^64`.
-/

set_option autoImplicit false

namespace RaugClientLua

/-- Opaque bit pattern of an `f64` (an mlua `Number`).  No floating-point
semantics are modelled; the pattern is only carried around. -/
structure F64 where
  bits : Nat
deriving DecidableEq, Repr

/-- Symbolic model of a Rust `f32` obtained by an `as f32` cast.
`ofInt n` is `(n : i64) as f32`; `ofNum x` is `(x : f64) as f32`.
IEEE-754 rounding is not modelled: the cast result is represented by its
source value, which is faithful for every property stated below (no claim
compares or computes with the numeric value of the cast). -/
inductive F32 where
  | ofInt (n : Int)
  | ofNum (x : F64)
deriving DecidableEq, Repr

/-- `raug_graph::graph::NodeIndex` — an opaque node identifier assigned by
the remote server, modelled as a natural number token. -/
abbrev NodeIndex := Nat

/-- `raug_server::graph::NameOrIndex` — an output or input selector,
either a zero-based `u32` position or a name.  External vocabulary,
modelled from its use sites in this crate. -/
inductive NameOrIndex where
  | Index (i : Nat)
  | Name (s : String)
deriving DecidableEq, Repr

/-- `raug_server::graph::GraphOp` — the remote operation vocabulary, as
used by this crate (external collaborator; constructors modelled from the
call sites in `src/graph.rs` and `src/client.rs`). -/
inductive GraphOp where
  | AddProcessor (name : String)
  | Connect (source : NodeIndex) (source_output : NameOrIndex)
      (target : NodeIndex) (target_input : NameOrIndex)
  | AddConstantF32 (value : F32)
  | AddConstantBool (value : Bool)
  | AddConstantString (value : String)
  | ReplaceNode (replaced : NodeIndex) (replacement : NodeIndex)
  | AddToMix (mixer_channel : Nat) (source : NodeIndex) (source_output : NameOrIndex)
  | AddDac
  | Play
  | Stop
deriving DecidableEq, Repr

/-- `raug_server::graph::GraphOpResponse`, as used by this crate: either a
fresh node identifier or no content. -/
inductive GraphOpResponse where
  | NodeIndex (i : NodeIndex)
  | None
deriving DecidableEq, Repr

/-- `GraphOpResponse::as_node_index` — `Some` exactly on the `NodeIndex`
variant (`Nat` is `NodeIndex`; the constructor name shadows the abbreviation
here). -/
def GraphOpResponse.as_node_index : GraphOpResponse → Option Nat
  | .NodeIndex i => some i
  | .None => none

/-- Failure modes of a bridge operation.  The code has no error enum of its
own: `runtime` is `mlua::Error::runtime(msg)`, `transport` is any failure
returned by `GraphOp::request` itself, `staleHandle` is the panic raised by
`this.client.upgrade().unwrap()` on a dropped Session (classified as
`StaleHandle` by the spec, §7/§9), and `unwrapFailed` covers the remaining
`.unwrap()` / `assert_eq!` panics. -/
inductive Err where
  | staleHandle
  | unwrapFailed (site : String)
  | runtime (msg : String)
  | transport (msg : String)
deriving DecidableEq, Repr

/-- The request trace: every request issued over the session so far, in
issue order. -/
abbrev Trace := List GraphOp

/-- The client session, reduced to its observable transport behaviour: a
mock remote endpoint answering the `n`-th issued request `op` with
`oracle n op`.  (The real `Client` also owns the Lua runtime and the UDP
socket; neither carries state any claim depends on.) -/
structure Client where
  oracle : Nat → GraphOp → Except Err GraphOpResponse

/-- `Client::request` / `GraphOp::request`: send `op` (appending it to the
trace) and return the matching response or a transport error. -/
def Client.request (c : Client) (op : GraphOp) (sent : Trace) :
    Except Err GraphOpResponse × Trace :=
  (c.oracle sent.length op, sent ++ [op])

/-- The recurring pattern `client.request(op).await?` followed by
`resp.as_node_index().unwrap()`: issue `op` and demand a node-index
response, panicking (modelled as `Err.unwrapFailed`) otherwise. -/
def Client.request_node (c : Client) (op : GraphOp) (sent : Trace) :
    Except Err NodeIndex × Trace :=
  match Client.request c op sent with
  | (.error e, sent) => (.error e, sent)
  | (.ok resp, sent) =>
    match resp.as_node_index with
    | some i => (.ok i, sent)
    | none => (.error (.unwrapFailed ("as_node_index")), sent)

/-- `LuaNode` (src/graph.rs): a client-side reference to a remote node.
`client` models the `Weak<Client>` back-reference: `some c` is a weak
reference whose `upgrade()` succeeds and yields `c`, `none` one whose
Session has been dropped. -/
structure LuaNode where
  client : Option Client
  index : NodeIndex

/-- `LuaOutput` (src/graph.rs): a reference to one output slot of a remote
node. -/
structure LuaOutput where
  client : Option Client
  node : NodeIndex
  output : NameOrIndex

/-- `LuaMixer` (src/graph.rs). -/
structure LuaMixer where
  client : Option Client

/-- A Lua byte string.  mlua's `to_string_lossy` conversion is modelled as
the identity on (valid UTF-8) strings. -/
abbrev LuaStr := String

/-- The userdata payloads this crate registers with the Lua runtime.
`other` stands for any foreign userdata (both `borrow` attempts fail). -/
inductive Ud where
  | output (o : LuaOutput)
  | node (n : LuaNode)
  | other (kind : String)

/-- `mlua::Value` — the dynamic script value, restricted to the variants
this crate distinguishes.  `Table` and `Function` stand for the remaining
mlua variants that every match in this crate routes to its catch-all arm;
a `Function` carries the value its zero-argument call returns (the mixer
is the only caller and calls it with no arguments). -/
inductive Value where
  | Nil
  | Boolean (b : Bool)
  | Integer (n : Int)
  | Number (x : F64)
  | String (s : LuaStr)
  | Table
  | Function (call : Unit → Value)
  | UserData (u : Ud)

/-- Abbreviated model of Rust `{:?}` (Debug) formatting of an `mlua::Value`:
the variant tag is kept, payloads are elided.  Only the kind matters to any
statement below. -/
def Value.rustDebug : Value → LuaStr
  | .Nil => "Nil"
  | .Boolean _ => "Boolean(..)"
  | .Integer _ => "Integer(..)"
  | .Number _ => "Number(..)"
  | .String _ => "String(..)"
  | .Table => "Table(..)"
  | .Function _ => "Function(..)"
  | .UserData _ => "UserData(..)"

/-- `mlua::Value::as_integer`, restricted to the modelled variants: `Some`
on the `Integer` variant.  (Whether an integral `Number` is also coerced is
mlua-version-dependent and not modelled; no claim depends on it.) -/
def Value.as_integer : Value → Option Int
  | .Integer n => some n
  | _ => none

/-- `mlua::Value::as_function`: `Some` exactly on the `Function` variant. -/
def Value.as_function : Value → Option (Unit → Value)
  | .Function f => some f
  | _ => none

/-- Rust `i64 as u32`: truncation to the low 32 bits, i.e. reduction
modulo `2^32`. -/
def u32_of_i64 (v : Int) : Nat :=
  (v % ((2 : Int) ^ 32)).toNat

/-- Rust `usize as u32` (64-bit `usize`): reduction modulo `2^32`. -/
def u32_of_usize (n : Nat) : Nat :=
  n % 2 ^ 32

/-- Rust `i64 as usize` (64-bit `usize`): two's-complement reinterpretation,
i.e. reduction modulo `2^64`. -/
def usize_of_i64 (v : Int) : Nat :=
  (v % ((2 : Int) ^ 64)).toNat

/-- `value_to_output` (src/graph.rs, lines 75–115): coerce an arbitrary Lua
value into a `(node, output-selector)` connection source, creating constant
nodes for literals. -/
def value_to_output (client : Client) (value : Value) (sent : Trace) :
    Except Err (NodeIndex × NameOrIndex) × Trace :=
  match value with
  | .Integer n =>
    match Client.request_node client (.AddConstantF32 (.ofInt n)) sent with
    | (.error e, sent) => (.error e, sent)
    | (.ok node, sent) => (.ok (node, .Index 0), sent)
  | .Number x =>
    match Client.request_node client (.AddConstantF32 (.ofNum x)) sent with
    | (.error e, sent) => (.error e, sent)
    | (.ok node, sent) => (.ok (node, .Index 0), sent)
  | .Boolean b =>
    match Client.request_node client (.AddConstantBool b) sent with
    | (.error e, sent) => (.error e, sent)
    | (.ok node, sent) => (.ok (node, .Index 0), sent)
  | .String s =>
    match Client.request_node client (.AddConstantString s) sent with
    | (.error e, sent) => (.error e, sent)
    | (.ok node, sent) => (.ok (node, .Index 0), sent)
  | .UserData u =>
    match u with
    | .output o => (.ok (o.node, o.output), sent)
    | .node nd => (.ok (nd.index, .Index 0), sent)
    | .other _ => (.error (.runtime ("Invalid rhs (userdata)")), sent)
  | v => (.error (.runtime ("Invalid rhs: " ++ Value.rustDebug v)), sent)

/-- `binary_op` (src/graph.rs, lines 10–44): create the processor node for
`op`, then issue the two connect requests with `tokio::try_join!`.  In this
sequential model both requests are sent (matching both being in flight)
and then both responses are checked, the left one first. -/
def binary_op (op : String) (client : Client) (lhs : NodeIndex)
    (lhs_output : NameOrIndex) (rhs : NodeIndex) (rhs_output : NameOrIndex)
    (sent : Trace) : Except Err LuaNode × Trace :=
  match Client.request_node client (.AddProcessor op) sent with
  | (.error e, sent) => (.error e, sent)
  | (.ok target, sent) =>
    let op0 : GraphOp := .Connect lhs lhs_output target (.Index 0)
    let op1 : GraphOp := .Connect rhs rhs_output target (.Index 1)
    match Client.request client op0 sent with
    | (r0, sent) =>
      match Client.request client op1 sent with
      | (r1, sent) =>
        match r0, r1 with
        | .ok _, .ok _ => (.ok { client := some client, index := target }, sent)
        | .error e, _ => (.error e, sent)
        | .ok _, .error e => (.error e, sent)

/-- `unary_op` (src/graph.rs, lines 46–73): create the processor node for
`op` and connect the operand to its input slot 0. -/
def unary_op (op : String) (client : Client) (node : NodeIndex)
    (node_output : NameOrIndex) (sent : Trace) : Except Err LuaNode × Trace :=
  match Client.request_node client (.AddProcessor op) sent with
  | (.error e, sent) => (.error e, sent)
  | (.ok target, sent) =>
    match Client.request client (.Connect node node_output target (.Index 0)) sent with
    | (.error e, sent) => (.error e, sent)
    | (.ok _, sent) => (.ok { client := some client, index := target }, sent)

/-- `LuaNode::replace` (src/graph.rs, lines 125–143): coerce the
replacement, issue a `ReplaceNode` request, mutate `this.index` in place to
the returned identifier and also return a fresh `LuaNode` for it.  The
result pair is (mutated `this`, returned node). -/
def LuaNode.replace (this : LuaNode) (replacement : Value) (sent : Trace) :
    Except Err (LuaNode × LuaNode) × Trace :=
  match this.client with
  | none => (.error .staleHandle, sent)
  | some client =>
    match value_to_output client replacement sent with
    | (.error e, sent) => (.error e, sent)
    | (.ok (repl, _), sent) =>
      match Client.request_node client (.ReplaceNode this.index repl) sent with
      | (.error e, sent) => (.error e, sent)
      | (.ok node, sent) =>
        (.ok ({ this with index := node }, { client := some client, index := node }), sent)

/-- `LuaNode`'s `__index` metamethod (src/graph.rs, lines 145–157): purely
local — integer keys become index selectors (cast `as u32`), string keys
become name selectors, anything else raises `runtime("Invalid index")`.
The trace is threaded untouched: the method issues no request. -/
def LuaNode.meta_index (this : LuaNode) (key : Value) (sent : Trace) :
    Except Err LuaOutput × Trace :=
  match key with
  | .Integer v =>
    (.ok { client := this.client, node := this.index, output := .Index (u32_of_i64 v) }, sent)
  | .String v =>
    (.ok { client := this.client, node := this.index, output := .Name v }, sent)
  | _ => (.error (.runtime ("Invalid index")), sent)

/-- `LuaNode`'s `__add` metamethod (src/graph.rs, lines 158–171). -/
def LuaNode.meta_add (lhs : LuaNode) (rhs : Value) (sent : Trace) :
    Except Err LuaNode × Trace :=
  match lhs.client with
  | none => (.error .staleHandle, sent)
  | some client =>
    match value_to_output client rhs sent with
    | (.error e, sent) => (.error e, sent)
    | (.ok (rhs, rhs_output), sent) =>
      binary_op "Add" client lhs.index (.Index 0) rhs rhs_output sent

/-- `LuaNode`'s `__sub` metamethod (src/graph.rs, lines 172–185). -/
def LuaNode.meta_sub (lhs : LuaNode) (rhs : Value) (sent : Trace) :
    Except Err LuaNode × Trace :=
  match lhs.client with
  | none => (.error .staleHandle, sent)
  | some client =>
    match value_to_output client rhs sent with
    | (.error e, sent) => (.error e, sent)
    | (.ok (rhs, rhs_output), sent) =>
      binary_op "Sub" client lhs.index (.Index 0) rhs rhs_output sent

/-- `LuaNode`'s `__mul` metamethod (src/graph.rs, lines 186–199). -/
def LuaNode.meta_mul (lhs : LuaNode) (rhs : Value) (sent : Trace) :
    Except Err LuaNode × Trace :=
  match lhs.client with
  | none => (.error .staleHandle, sent)
  | some client =>
    match value_to_output client rhs sent with
    | (.error e, sent) => (.error e, sent)
    | (.ok (rhs, rhs_output), sent) =>
      binary_op "Mul" client lhs.index (.Index 0) rhs rhs_output sent

/-- `LuaNode`'s `__div` metamethod (src/graph.rs, lines 200–213). -/
def LuaNode.meta_div (lhs : LuaNode) (rhs : Value) (sent : Trace) :
    Except Err LuaNode × Trace :=
  match lhs.client with
  | none => (.error .staleHandle, sent)
  | some client =>
    match value_to_output client rhs sent with
    | (.error e, sent) => (.error e, sent)
    | (.ok (rhs, rhs_output), sent) =>
      binary_op "Div" client lhs.index (.Index 0) rhs rhs_output sent

/-- `LuaNode`'s `__unm` metamethod (src/graph.rs, lines 214–218). -/
def LuaNode.meta_unm (node : LuaNode) (sent : Trace) :
    Except Err LuaNode × Trace :=
  match node.client with
  | none => (.error .staleHandle, sent)
  | some client => unary_op "Neg" client node.index (.Index 0) sent

/-- `LuaOutput`'s `__add` metamethod (src/graph.rs, lines 231–237). -/
def LuaOutput.meta_add (lhs : LuaOutput) (rhs : Value) (sent : Trace) :
    Except Err LuaNode × Trace :=
  match lhs.client with
  | none => (.error .staleHandle, sent)
  | some client =>
    match value_to_output client rhs sent with
    | (.error e, sent) => (.error e, sent)
    | (.ok (rhs, rhs_output), sent) =>
      binary_op "Add" client lhs.node lhs.output rhs rhs_output sent

/-- `LuaOutput`'s `__sub` metamethod (src/graph.rs, lines 238–244). -/
def LuaOutput.meta_sub (lhs : LuaOutput) (rhs : Value) (sent : Trace) :
    Except Err LuaNode × Trace :=
  match lhs.client with
  | none => (.error .staleHandle, sent)
  | some client =>
    match value_to_output client rhs sent with
    | (.error e, sent) => (.error e, sent)
    | (.ok (rhs, rhs_output), sent) =>
      binary_op "Sub" client lhs.node lhs.output rhs rhs_output sent

/-- `LuaOutput`'s `__mul` metamethod (src/graph.rs, lines 245–251). -/
def LuaOutput.meta_mul (lhs : LuaOutput) (rhs : Value) (sent : Trace) :
    Except Err LuaNode × Trace :=
  match lhs.client with
  | none => (.error .staleHandle, sent)
  | some client =>
    match value_to_output client rhs sent with
    | (.error e, sent) => (.error e, sent)
    | (.ok (rhs, rhs_output), sent) =>
      binary_op "Mul" client lhs.node lhs.output rhs rhs_output sent

/-- `LuaOutput`'s `__div` metamethod (src/graph.rs, lines 252–258). -/
def LuaOutput.meta_div (lhs : LuaOutput) (rhs : Value) (sent : Trace) :
    Except Err LuaNode × Trace :=
  match lhs.client with
  | none => (.error .staleHandle, sent)
  | some client =>
    match value_to_output client rhs sent with
    | (.error e, sent) => (.error e, sent)
    | (.ok (rhs, rhs_output), sent) =>
      binary_op "Div" client lhs.node lhs.output rhs rhs_output sent

/-- `LuaOutput`'s `__unm` metamethod (src/graph.rs, lines 259–263). -/
def LuaOutput.meta_unm (output : LuaOutput) (sent : Trace) :
    Except Err LuaNode × Trace :=
  match output.client with
  | none => (.error .staleHandle, sent)
  | some client => unary_op "Neg" client output.node output.output sent

/-- `LuaMixer`'s `__newindex` metamethod (src/graph.rs, lines 272–296):
upgrade the session, demand an integer key and a callable value (both via
`.unwrap()`, modelled as `Err.unwrapFailed`), call the callable with no
arguments, coerce its result and issue one `AddToMix` request naming the
channel (`key as usize`) and the resolved source. -/
def LuaMixer.meta_newindex (this : LuaMixer) (key : Value) (val : Value)
    (sent : Trace) : Except Err Unit × Trace :=
  match this.client with
  | none => (.error .staleHandle, sent)
  | some client =>
    match Value.as_integer key with
    | none => (.error (.unwrapFailed ("key as_integer")), sent)
    | some k =>
      match Value.as_function val with
      | none => (.error (.unwrapFailed ("val as_function")), sent)
      | some f =>
        match value_to_output client (f ()) sent with
        | (.error e, sent) => (.error e, sent)
        | (.ok (index, output), sent) =>
          match Client.request client (.AddToMix (usize_of_i64 k) index output) sent with
          | (.error e, sent) => (.error e, sent)
          | (.ok _, sent) => (.ok (), sent)

/-- One iteration body of the loop in `connect_inputs_and_outputs`
(src/client.rs, lines 145–153): issue the `Connect` request for a resolved
source and `assert_eq!` that the response is `GraphOpResponse::None`. -/
def connect_source (c : Client) (node : NodeIndex) (source : NodeIndex)
    (source_output : NameOrIndex) (target_input : Nat) (sent : Trace) :
    Except Err Unit × Trace :=
  match Client.request c (.Connect source source_output node (.Index (u32_of_usize target_input))) sent with
  | (.error e, sent) => (.error e, sent)
  | (.ok resp, sent) =>
    match resp with
    | .None => (.ok (), sent)
    | _ => (.error (.unwrapFailed ("assert resp == GraphOpResponse None")), sent)

/-- The `for (target_input, arg) in args.iter().enumerate()` loop of
`connect_inputs_and_outputs` (src/client.rs, lines 116–154): `Nil`
arguments are skipped (the slot position is still consumed), numeric
arguments create a constant node first, userdata arguments resolve
directly, and every other value kind aborts with
`runtime("Invalid argument")`. -/
def connect_args_loop (c : Client) (node : NodeIndex) (args : List Value)
    (target_input : Nat) (sent : Trace) : Except Err Unit × Trace :=
  match args with
  | [] => (.ok (), sent)
  | arg :: rest =>
    match arg with
    | .Nil => connect_args_loop c node rest (target_input + 1) sent
    | .Number x =>
      match Client.request_node c (.AddConstantF32 (.ofNum x)) sent with
      | (.error e, sent) => (.error e, sent)
      | (.ok node_index, sent) =>
        match connect_source c node node_index (.Index 0) target_input sent with
        | (.error e, sent) => (.error e, sent)
        | (.ok _, sent) => connect_args_loop c node rest (target_input + 1) sent
    | .Integer n =>
      match Client.request_node c (.AddConstantF32 (.ofInt n)) sent with
      | (.error e, sent) => (.error e, sent)
      | (.ok node_index, sent) =>
        match connect_source c node node_index (.Index 0) target_input sent with
        | (.error e, sent) => (.error e, sent)
        | (.ok _, sent) => connect_args_loop c node rest (target_input + 1) sent
    | .UserData u =>
      match u with
      | .output o =>
        match connect_source c node o.node o.output target_input sent with
        | (.error e, sent) => (.error e, sent)
        | (.ok _, sent) => connect_args_loop c node rest (target_input + 1) sent
      | .node nd =>
        match connect_source c node nd.index (.Index 0) target_input sent with
        | (.error e, sent) => (.error e, sent)
        | (.ok _, sent) => connect_args_loop c node rest (target_input + 1) sent
      | .other _ => (.error (.runtime ("Invalid argument")), sent)
    | _ => (.error (.runtime ("Invalid argument")), sent)

/-- `Client::connect_inputs_and_outputs` (src/client.rs, lines 111–160):
run the argument loop against `node` and hand back a `LuaNode` for it
(whose back-reference is the client's own weak self-reference). -/
def Client.connect_inputs_and_outputs (c : Client) (node : NodeIndex)
    (args : List Value) (sent : Trace) : Except Err LuaNode × Trace :=
  match connect_args_loop c node args 0 sent with
  | (.error e, sent) => (.error e, sent)
  | (.ok _, sent) => (.ok { client := some c, index := node }, sent)

/-- The `dac` built-in (src/client.rs, lines 77–93): create the dac sink
node and wire the arguments to its input slots. -/
def Client.lua_dac (c : Client) (args : List Value) (sent : Trace) :
    Except Err LuaNode × Trace :=
  match Client.request_node c .AddDac sent with
  | (.error e, sent) => (.error e, sent)
  | (.ok dacNode, sent) => Client.connect_inputs_and_outputs c dacNode args sent

/-- The body of a callable registered by `register_lua_proc`
(src/client.rs, lines 162–191), with the processor name already converted
to UpperCamel case (the casing conversion is the external `convert_case`
crate and is not modelled): create the processor node and wire the
arguments to its input slots. -/
def Client.lua_proc_call (c : Client) (procName : String) (args : List Value)
    (sent : Trace) : Except Err LuaNode × Trace :=
  match Client.request_node c (.AddProcessor procName) sent with
  | (.error e, sent) => (.error e, sent)
  | (.ok target, sent) => Client.connect_inputs_and_outputs c target args sent

/-- Mock transport answering every request with a fresh node identifier
equal to the request count. -/
def mockAllNodes : Client :=
  { oracle := fun n _ => .ok (.NodeIndex n) }

/-- Mock transport answering every `Connect` request with `None` (as the
`assert_eq!` in `connect_inputs_and_outputs` demands) and every other
request with a fresh node identifier equal to the request count. -/
def mockServer : Client :=
  { oracle := fun n op =>
      match op with
      | .Connect _ _ _ _ => .ok .None
      | _ => .ok (.NodeIndex n) }

/-- Statement-side classifier: the key kinds `LuaNode`'s `__index` accepts
(integer or string). -/
def Value.isIndexKey : Value → Bool
  | .Integer _ => true
  | .String _ => true
  | _ => false

/-- Statement-side classifier: the argument kinds `connect_args_loop`
accepts (`Nil`, numbers, integers, node or output userdata). -/
def Value.connectable : Value → Bool
  | .Nil => true
  | .Number _ => true
  | .Integer _ => true
  | .UserData (.output _) => true
  | .UserData (.node _) => true
  | _ => false

/-- The request trace `connect_args_loop` produces against a transport
that answers the `n`-th request with node `fresh n` when it is a constant
creation and with `None` when it is a `Connect`: the slot position
(`target_input`) advances for every argument, including skipped `Nil`s,
while the request count (`cnt`) advances only for requests actually
issued. -/
def expected_connect_trace (fresh : Nat → NodeIndex) (node : NodeIndex) :
    List Value → Nat → Nat → Trace
  | [], _, _ => []
  | .Nil :: rest, target_input, cnt =>
    expected_connect_trace fresh node rest (target_input + 1) cnt
  | .Number x :: rest, target_input, cnt =>
    .AddConstantF32 (.ofNum x) ::
    .Connect (fresh cnt) (.Index 0) node (.Index (u32_of_usize target_input)) ::
    expected_connect_trace fresh node rest (target_input + 1) (cnt + 2)
  | .Integer n :: rest, target_input, cnt =>
    .AddConstantF32 (.ofInt n) ::
    .Connect (fresh cnt) (.Index 0) node (.Index (u32_of_usize target_input)) ::
    expected_connect_trace fresh node rest (target_input + 1) (cnt + 2)
  | .UserData (.output o) :: rest, target_input, cnt =>
    .Connect o.node o.output node (.Index (u32_of_usize target_input)) ::
    expected_connect_trace fresh node rest (target_input + 1) (cnt + 1)
  | .UserData (.node nd) :: rest, target_input, cnt =>
    .Connect nd.index (.Index 0) node (.Index (u32_of_usize target_input)) ::
    expected_connect_trace fresh node rest (target_input + 1) (cnt + 1)
  | _ :: _, _, _ => []

/-! ## General lemmas shared by the claim theorems -/

/-- `Client.request_node` under an oracle that answers the `n`-th request
with node `t n`. -/
theorem request_node_ok (c : Client) (t : Nat → NodeIndex)
    (h : ∀ n op, c.oracle n op = .ok (.NodeIndex (t n))) (op : GraphOp)
    (sent : Trace) :
    Client.request_node c op sent = (.ok (t sent.length), sent ++ [op]) := by
  simp [Client.request_node, Client.request, h, GraphOpResponse.as_node_index]

/-! ## Claim theorems -/

/-- C1: for every binary arithmetic operation on a node or output left
operand with an already-coerced right operand, `binary_op` issues exactly
one `AddProcessor` request for the operator's processor name followed by
exactly two `Connect` requests — left operand to input slot 0 of the new
node and right operand to input slot 1 — and returns a `LuaNode` whose
identifier is the one carried by the `AddProcessor` response. -/
theorem c1_binary_op_requests (c : Client) (op : String) (lhs : NodeIndex)
    (lhs_output : NameOrIndex) (rhs : NodeIndex) (rhs_output : NameOrIndex)
    (sent : Trace) (target : NodeIndex) (r0 r1 : GraphOpResponse)
    (h1 : c.oracle sent.length (.AddProcessor op) = .ok (.NodeIndex target))
    (h2 : c.oracle (sent.length + 1)
      (.Connect lhs lhs_output target (.Index 0)) = .ok r0)
    (h3 : c.oracle (sent.length + 2)
      (.Connect rhs rhs_output target (.Index 1)) = .ok r1) :
    binary_op op c lhs lhs_output rhs rhs_output sent =
      (.ok { client := some c, index := target },
       sent ++ [.AddProcessor op,
                .Connect lhs lhs_output target (.Index 0),
                .Connect rhs rhs_output target (.Index 1)]) := by
  simp [binary_op, Client.request_node, Client.request,
    GraphOpResponse.as_node_index, h1, h2, h3]

/-- Witness for C1 at a concrete input: adding node 5 and node 7 against
the mock transport issues the create-processor request and the two
connects, and returns the node the mock created for the processor. -/
theorem c1_witness :
    binary_op "Add" mockServer 5 (.Index 0) 7 (.Name "sig") [] =
      (.ok { client := some mockServer, index := 0 },
       [.AddProcessor "Add",
        .Connect 5 (.Index 0) 0 (.Index 0),
        .Connect 7 (.Name "sig") 0 (.Index 1)]) :=
  c1_binary_op_requests mockServer "Add" 5 (.Index 0) 7 (.Name "sig") []
    0 .None .None rfl rfl rfl

/-- C2: every operation (the four arithmetic metamethods and negation on
both handle kinds, `replace`, and mixer channel assignment) attempted
through a handle whose Session has been dropped fails with the
stale-handle error and leaves the request trace untouched: no transport
send is attempted. -/
theorem c2_stale_handle_fails_without_send :
    (∀ (idx : NodeIndex) (rhs : Value) (s : Trace),
      LuaNode.meta_add { client := none, index := idx } rhs s = (.error .staleHandle, s)) ∧
    (∀ (idx : NodeIndex) (rhs : Value) (s : Trace),
      LuaNode.meta_sub { client := none, index := idx } rhs s = (.error .staleHandle, s)) ∧
    (∀ (idx : NodeIndex) (rhs : Value) (s : Trace),
      LuaNode.meta_mul { client := none, index := idx } rhs s = (.error .staleHandle, s)) ∧
    (∀ (idx : NodeIndex) (rhs : Value) (s : Trace),
      LuaNode.meta_div { client := none, index := idx } rhs s = (.error .staleHandle, s)) ∧
    (∀ (idx : NodeIndex) (s : Trace),
      LuaNode.meta_unm { client := none, index := idx } s = (.error .staleHandle, s)) ∧
    (∀ (idx : NodeIndex) (rhs : Value) (s : Trace),
      LuaNode.replace { client := none, index := idx } rhs s = (.error .staleHandle, s)) ∧
    (∀ (nd : NodeIndex) (out : NameOrIndex) (rhs : Value) (s : Trace),
      LuaOutput.meta_add { client := none, node := nd, output := out } rhs s =
        (.error .staleHandle, s)) ∧
    (∀ (nd : NodeIndex) (out : NameOrIndex) (rhs : Value) (s : Trace),
      LuaOutput.meta_sub { client := none, node := nd, output := out } rhs s =
        (.error .staleHandle, s)) ∧
    (∀ (nd : NodeIndex) (out : NameOrIndex) (rhs : Value) (s : Trace),
      LuaOutput.meta_mul { client := none, node := nd, output := out } rhs s =
        (.error .staleHandle, s)) ∧
    (∀ (nd : NodeIndex) (out : NameOrIndex) (rhs : Value) (s : Trace),
      LuaOutput.meta_div { client := none, node := nd, output := out } rhs s =
        (.error .staleHandle, s)) ∧
    (∀ (nd : NodeIndex) (out : NameOrIndex) (s : Trace),
      LuaOutput.meta_unm { client := none, node := nd, output := out } s =
        (.error .staleHandle, s)) ∧
    (∀ (key val : Value) (s : Trace),
      LuaMixer.meta_newindex { client := none } key val s = (.error .staleHandle, s)) :=
  ⟨fun _ _ _ => rfl, fun _ _ _ => rfl, fun _ _ _ => rfl, fun _ _ _ => rfl,
   fun _ _ => rfl, fun _ _ _ => rfl, fun _ _ _ _ => rfl, fun _ _ _ _ => rfl,
   fun _ _ _ _ => rfl, fun _ _ _ _ => rfl, fun _ _ _ => rfl, fun _ _ _ => rfl⟩

/-- C4: indexing a node reference with an integer key yields an output
reference with an index selector (the key cast `as u32`, which is the key
itself for keys below `2^32`), indexing with a string key yields a name
selector equal to the string, indexing with any other key kind fails with
`runtime("Invalid index")`, and in all cases the request trace is
unchanged: no remote request is issued. -/
theorem c4_meta_index_cases (nd : LuaNode) :
    (∀ (i : Int) (sent : Trace),
      LuaNode.meta_index nd (.Integer i) sent =
        (.ok { client := nd.client, node := nd.index,
               output := .Index (u32_of_i64 i) }, sent)) ∧
    (∀ i : Int, 0 ≤ i → i < 2 ^ 32 → u32_of_i64 i = i.toNat) ∧
    (∀ (s : LuaStr) (sent : Trace),
      LuaNode.meta_index nd (.String s) sent =
        (.ok { client := nd.client, node := nd.index, output := .Name s }, sent)) ∧
    (∀ (key : Value) (sent : Trace), Value.isIndexKey key = false →
      LuaNode.meta_index nd key sent = (.error (.runtime ("Invalid index")), sent)) := by
  refine ⟨fun i sent => rfl, fun i h0 h32 => ?_, fun s sent => rfl, fun key sent hk => ?_⟩
  · unfold u32_of_i64
    rw [Int.emod_eq_of_lt h0 h32]
  · cases key <;> simp_all [Value.isIndexKey, LuaNode.meta_index]

/-- Witness for C4 at concrete inputs: integer key 2 yields the index-2
selector, string key "out" yields the name selector, boolean keys fail,
all without touching the trace. -/
theorem c4_witness :
    LuaNode.meta_index { client := none, index := 7 } (.Integer 2) [] =
      (.ok { client := none, node := 7, output := .Index (u32_of_i64 2) }, []) ∧
    u32_of_i64 2 = 2 ∧
    LuaNode.meta_index { client := none, index := 7 } (.String "out") [] =
      (.ok { client := none, node := 7, output := .Name "out" }, []) ∧
    LuaNode.meta_index { client := none, index := 7 } (.Boolean true) [] =
      (.error (.runtime ("Invalid index")), []) :=
  ⟨(c4_meta_index_cases { client := none, index := 7 }).1 2 [],
   (c4_meta_index_cases { client := none, index := 7 }).2.1 2 (by decide) (by decide),
   (c4_meta_index_cases { client := none, index := 7 }).2.2.1 "out" [],
   (c4_meta_index_cases { client := none, index := 7 }).2.2.2 (.Boolean true) [] rfl⟩

/-- C10: indexing a node reference with a negative integer key does not
fail: it succeeds with an index selector equal to the key reduced modulo
`2^32` (the two's-complement wrap of the `as u32` cast). -/
theorem c10_negative_key_wraps (nd : LuaNode) (n : Int) (sent : Trace)
    (hneg : n < 0) :
    LuaNode.meta_index nd (.Integer n) sent =
      (.ok { client := nd.client, node := nd.index,
             output := .Index ((n % 2 ^ 32).toNat) }, sent) := rfl

/-- Witness for C10 at `n = -1`: the selector is `2^32 - 1`, not an
error. -/
theorem c10_witness :
    LuaNode.meta_index { client := none, index := 3 } (.Integer (-1)) [] =
      (.ok { client := none, node := 3,
             output := .Index (((-1 : Int) % 2 ^ 32).toNat) }, []) ∧
    ((-1 : Int) % 2 ^ 32).toNat = 4294967295 :=
  ⟨c10_negative_key_wraps { client := none, index := 3 } (-1) [] (by decide),
   by decide⟩

/-- C3: coercion case analysis.  Against a transport answering the `n`-th
request with node `t n`: numeric literals (integer or float) issue one
`AddConstantF32` request carrying the literal as a 32-bit float and
resolve to the created node with output index 0; booleans issue one
`AddConstantBool` request; strings one `AddConstantString` request; an
existing node reference resolves to its identifier with output index 0
and an existing output reference to its identifier with its stored
selector, both without any request; every other value kind fails with a
`runtime` error naming the unsupported value's kind, with no request
issued. -/
theorem c3_value_to_output_cases (c : Client) (t : Nat → NodeIndex)
    (h : ∀ n op, c.oracle n op = .ok (.NodeIndex (t n))) :
    (∀ (n : Int) (sent : Trace),
      value_to_output c (.Integer n) sent =
        (.ok (t sent.length, .Index 0), sent ++ [.AddConstantF32 (.ofInt n)])) ∧
    (∀ (x : F64) (sent : Trace),
      value_to_output c (.Number x) sent =
        (.ok (t sent.length, .Index 0), sent ++ [.AddConstantF32 (.ofNum x)])) ∧
    (∀ (b : Bool) (sent : Trace),
      value_to_output c (.Boolean b) sent =
        (.ok (t sent.length, .Index 0), sent ++ [.AddConstantBool b])) ∧
    (∀ (s : LuaStr) (sent : Trace),
      value_to_output c (.String s) sent =
        (.ok (t sent.length, .Index 0), sent ++ [.AddConstantString s])) ∧
    (∀ (nd : LuaNode) (sent : Trace),
      value_to_output c (.UserData (.node nd)) sent =
        (.ok (nd.index, .Index 0), sent)) ∧
    (∀ (o : LuaOutput) (sent : Trace),
      value_to_output c (.UserData (.output o)) sent =
        (.ok (o.node, o.output), sent)) ∧
    (∀ sent : Trace,
      value_to_output c .Nil sent =
        (.error (.runtime ("Invalid rhs: Nil")), sent)) ∧
    (∀ sent : Trace,
      value_to_output c .Table sent =
        (.error (.runtime ("Invalid rhs: Table(..)")), sent)) ∧
    (∀ (f : Unit → Value) (sent : Trace),
      value_to_output c (.Function f) sent =
        (.error (.runtime ("Invalid rhs: Function(..)")), sent)) ∧
    (∀ (k : LuaStr) (sent : Trace),
      value_to_output c (.UserData (.other k)) sent =
        (.error (.runtime ("Invalid rhs (userdata)")), sent)) := by
  refine ⟨fun n sent => ?_, fun x sent => ?_, fun b sent => ?_, fun s sent => ?_,
    fun nd sent => rfl, fun o sent => rfl, fun sent => rfl, fun sent => rfl,
    fun f sent => rfl, fun k sent => rfl⟩ <;>
  simp [value_to_output, request_node_ok c t h]

/-- Witness for C3 at concrete inputs, against the all-nodes mock: one
branch of each kind. -/
theorem c3_witness :
    value_to_output mockAllNodes (.Integer 5) [] =
      (.ok (0, .Index 0), [.AddConstantF32 (.ofInt 5)]) ∧
    value_to_output mockAllNodes (.Boolean true) [] =
      (.ok (0, .Index 0), [.AddConstantBool true]) ∧
    value_to_output mockAllNodes (.String "hi") [] =
      (.ok (0, .Index 0), [.AddConstantString "hi"]) ∧
    value_to_output mockAllNodes (.UserData (.node { client := none, index := 4 })) [] =
      (.ok (4, .Index 0), []) ∧
    value_to_output mockAllNodes
        (.UserData (.output { client := none, node := 4, output := .Name "sig" })) [] =
      (.ok (4, .Name "sig"), []) ∧
    value_to_output mockAllNodes .Nil [] =
      (.error (.runtime ("Invalid rhs: Nil")), []) :=
  ⟨(c3_value_to_output_cases mockAllNodes (fun n => n) (fun _ _ => rfl)).1 5 [],
   (c3_value_to_output_cases mockAllNodes (fun n => n) (fun _ _ => rfl)).2.2.1 true [],
   (c3_value_to_output_cases mockAllNodes (fun n => n) (fun _ _ => rfl)).2.2.2.1 "hi" [],
   (c3_value_to_output_cases mockAllNodes (fun n => n) (fun _ _ => rfl)).2.2.2.2.1
     { client := none, index := 4 } [],
   (c3_value_to_output_cases mockAllNodes (fun n => n) (fun _ _ => rfl)).2.2.2.2.2.1
     { client := none, node := 4, output := .Name "sig" } [],
   (c3_value_to_output_cases mockAllNodes (fun n => n) (fun _ _ => rfl)).2.2.2.2.2.2.1 []⟩

/-- C7: literal coercion is not idempotent.  Each coercion of a numeric
literal issues its own `AddConstantF32` request, so coercing the same
literal twice issues two requests; when the transport assigns distinct
identifiers to distinct requests (as a real server does for fresh nodes),
the two resulting nodes are distinct. -/
theorem c7_literal_coercion_not_idempotent (c : Client) (t : Nat → NodeIndex)
    (h : ∀ n op, c.oracle n op = .ok (.NodeIndex (t n)))
    (hinj : ∀ m m' : Nat, m ≠ m' → t m ≠ t m') :
    (∀ (n : Int) (sent : Trace),
      value_to_output c (.Integer n) sent =
        (.ok (t sent.length, .Index 0), sent ++ [.AddConstantF32 (.ofInt n)]) ∧
      value_to_output c (.Integer n) (sent ++ [.AddConstantF32 (.ofInt n)]) =
        (.ok (t (sent.length + 1), .Index 0),
         sent ++ [.AddConstantF32 (.ofInt n), .AddConstantF32 (.ofInt n)]) ∧
      t sent.length ≠ t (sent.length + 1)) ∧
    (∀ (x : F64) (sent : Trace),
      value_to_output c (.Number x) sent =
        (.ok (t sent.length, .Index 0), sent ++ [.AddConstantF32 (.ofNum x)]) ∧
      value_to_output c (.Number x) (sent ++ [.AddConstantF32 (.ofNum x)]) =
        (.ok (t (sent.length + 1), .Index 0),
         sent ++ [.AddConstantF32 (.ofNum x), .AddConstantF32 (.ofNum x)]) ∧
      t sent.length ≠ t (sent.length + 1)) := by
  constructor
  · intro n sent
    refine ⟨?_, ?_, hinj _ _ (by omega)⟩ <;>
      simp [value_to_output, request_node_ok c t h]
  · intro x sent
    refine ⟨?_, ?_, hinj _ _ (by omega)⟩ <;>
      simp [value_to_output, request_node_ok c t h]

/-- Witness for C7 at the literal 5: coercing it twice against the
all-nodes mock issues two `AddConstantF32` requests and yields the
distinct nodes 0 and 1. -/
theorem c7_witness :
    value_to_output mockAllNodes (.Integer 5) [] =
      (.ok (0, .Index 0), [.AddConstantF32 (.ofInt 5)]) ∧
    value_to_output mockAllNodes (.Integer 5) [.AddConstantF32 (.ofInt 5)] =
      (.ok (1, .Index 0),
       [.AddConstantF32 (.ofInt 5), .AddConstantF32 (.ofInt 5)]) ∧
    (0 : NodeIndex) ≠ 1 := by
  have hw := (c7_literal_coercion_not_idempotent mockAllNodes (fun n => n)
    (fun _ _ => rfl) (fun _ _ hne => hne)).1 5 []
  simpa using hw

/-- C5: when `replace` succeeds, the handle is mutated in place so that
its identifier afterwards equals the identifier carried by the
`ReplaceNode` response (as is the returned fresh handle's), not the
pre-replacement identifier. -/
theorem c5_replace_mutates_to_response (c : Client) (idx : NodeIndex)
    (replacement : Value) (sent s1 : Trace) (repl : NodeIndex)
    (out : NameOrIndex) (rid : NodeIndex)
    (hco : value_to_output c replacement sent = (.ok (repl, out), s1))
    (hresp : c.oracle s1.length (.ReplaceNode idx repl) = .ok (.NodeIndex rid)) :
    LuaNode.replace { client := some c, index := idx } replacement sent =
      (.ok ({ client := some c, index := rid },
            { client := some c, index := rid }),
       s1 ++ [.ReplaceNode idx repl]) := by
  simp [LuaNode.replace, Client.request_node, Client.request, hco, hresp,
    GraphOpResponse.as_node_index]

/-- Witness for C5 at a concrete input: replacing node 4 by the existing
node 9 against the all-nodes mock issues one `ReplaceNode` request and
leaves the handle pointing at the responded identifier 0, not at 4. -/
theorem c5_witness :
    LuaNode.replace { client := some mockAllNodes, index := 4 }
        (.UserData (.node { client := none, index := 9 })) [] =
      (.ok ({ client := some mockAllNodes, index := 0 },
            { client := some mockAllNodes, index := 0 }),
       [.ReplaceNode 4 9]) :=
  c5_replace_mutates_to_response mockAllNodes 4
    (.UserData (.node { client := none, index := 9 })) [] [] 9 (.Index 0) 0
    rfl rfl

/-- C6: mixer channel assignment.  A key that is not an integer, or a
value that is not callable, makes the operation fail (the `unwrap` on
`as_integer` / `as_function`; the spec files both under `InvalidArgument`)
with the request trace untouched — no transport request is issued.
Otherwise the callable is invoked, its result coerced, and exactly one
`AddToMix` request is issued naming the channel (the key cast `as usize`,
which is the key itself for nonnegative keys) and the resolved
`(node, output)` pair. -/
theorem c6_mixer_newindex_cases (c : Client) :
    (∀ (key val : Value) (sent : Trace), Value.as_integer key = none →
      LuaMixer.meta_newindex { client := some c } key val sent =
        (.error (.unwrapFailed ("key as_integer")), sent)) ∧
    (∀ (k : Int) (val : Value) (sent : Trace), Value.as_function val = none →
      LuaMixer.meta_newindex { client := some c } (.Integer k) val sent =
        (.error (.unwrapFailed ("val as_function")), sent)) ∧
    (∀ (k : Int) (f : Unit → Value) (sent s1 : Trace) (idx : NodeIndex)
        (out : NameOrIndex) (resp : GraphOpResponse),
      value_to_output c (f ()) sent = (.ok (idx, out), s1) →
      c.oracle s1.length (.AddToMix (usize_of_i64 k) idx out) = .ok resp →
      LuaMixer.meta_newindex { client := some c } (.Integer k) (.Function f) sent =
        (.ok (), s1 ++ [.AddToMix (usize_of_i64 k) idx out])) ∧
    (∀ k : Int, 0 ≤ k → k < 2 ^ 64 → usize_of_i64 k = k.toNat) := by
  refine ⟨fun key val sent hk => ?_, fun k val sent hv => ?_,
    fun k f sent s1 idx out resp hco hresp => ?_, fun k h0 h64 => ?_⟩
  · simp [LuaMixer.meta_newindex, hk]
  · simp [LuaMixer.meta_newindex, Value.as_integer, hv]
  · simp [LuaMixer.meta_newindex, Value.as_integer, Value.as_function,
      Client.request, hco, hresp]
  · unfold usize_of_i64
    rw [Int.emod_eq_of_lt h0 h64]

/-- Witness for C6 at concrete inputs: a string key fails without any
request, a non-callable value fails without any request, and assigning a
callable producing the existing node 2 to channel 3 issues exactly the one
`AddToMix` request. -/
theorem c6_witness :
    LuaMixer.meta_newindex { client := some mockAllNodes } (.String "a") .Nil [] =
      (.error (.unwrapFailed ("key as_integer")), []) ∧
    LuaMixer.meta_newindex { client := some mockAllNodes } (.Integer 3) (.Boolean true) [] =
      (.error (.unwrapFailed ("val as_function")), []) ∧
    LuaMixer.meta_newindex { client := some mockAllNodes } (.Integer 3)
        (.Function fun _ => .UserData (.node { client := none, index := 2 })) [] =
      (.ok (), [.AddToMix (usize_of_i64 3) 2 (.Index 0)]) ∧
    usize_of_i64 3 = 3 :=
  ⟨(c6_mixer_newindex_cases mockAllNodes).1 (.String "a") .Nil [] rfl,
   (c6_mixer_newindex_cases mockAllNodes).2.1 3 (.Boolean true) [] rfl,
   (c6_mixer_newindex_cases mockAllNodes).2.2.1 3
     (fun _ => .UserData (.node { client := none, index := 2 })) [] [] 2
     (.Index 0) (.NodeIndex 0) rfl rfl,
   (c6_mixer_newindex_cases mockAllNodes).2.2.2 3 (by decide) (by decide)⟩

/-- The argument loop of `connect_inputs_and_outputs`, characterized
against a transport answering the `n`-th request with node `fresh n` for
constant creations and with `None` for connects: the trace grows by
exactly `expected_connect_trace`, in which `Nil` arguments contribute no
request but still consume their slot position. -/
theorem connect_args_loop_ok (c : Client) (fresh : Nat → NodeIndex)
    (hf : ∀ (n : Nat) (v : F32),
      c.oracle n (.AddConstantF32 v) = .ok (.NodeIndex (fresh n)))
    (hc : ∀ (n : Nat) (src : NodeIndex) (so : NameOrIndex) (tgt : NodeIndex)
      (ti : NameOrIndex), c.oracle n (.Connect src so tgt ti) = .ok .None)
    (node : NodeIndex) :
    ∀ (args : List Value) (target_input : Nat) (sent : Trace),
      args.all Value.connectable = true →
      connect_args_loop c node args target_input sent =
        (.ok (), sent ++ expected_connect_trace fresh node args target_input sent.length) := by
  intro args
  induction args with
  | nil =>
    intro ti sent _
    simp [connect_args_loop, expected_connect_trace]
  | cons a rest ih =>
    intro ti sent hall
    rw [List.all_cons, Bool.and_eq_true] at hall
    cases a with
    | Nil =>
      simpa [connect_args_loop, expected_connect_trace] using ih (ti + 1) sent hall.2
    | Number x =>
      have hrest := ih (ti + 1) (sent ++
        [.AddConstantF32 (.ofNum x),
         .Connect (fresh sent.length) (.Index 0) node (.Index (u32_of_usize ti))])
        hall.2
      simp only [connect_args_loop, connect_source, Client.request_node,
        Client.request, GraphOpResponse.as_node_index, hf, hc,
        List.length_append, List.length_cons, List.length_nil,
        expected_connect_trace] at hrest ⊢
      simpa [List.append_assoc] using hrest
    | Integer n =>
      have hrest := ih (ti + 1) (sent ++
        [.AddConstantF32 (.ofInt n),
         .Connect (fresh sent.length) (.Index 0) node (.Index (u32_of_usize ti))])
        hall.2
      simp only [connect_args_loop, connect_source, Client.request_node,
        Client.request, GraphOpResponse.as_node_index, hf, hc,
        List.length_append, List.length_cons, List.length_nil,
        expected_connect_trace] at hrest ⊢
      simpa [List.append_assoc] using hrest
    | UserData u =>
      cases u with
      | output o =>
        have hrest := ih (ti + 1)
          (sent ++ [.Connect o.node o.output node (.Index (u32_of_usize ti))])
          hall.2
        simp only [connect_args_loop, connect_source, Client.request,
          hc, List.length_append, List.length_cons, List.length_nil,
          expected_connect_trace] at hrest ⊢
        simpa [List.append_assoc] using hrest
      | node nd =>
        have hrest := ih (ti + 1)
          (sent ++ [.Connect nd.index (.Index 0) node (.Index (u32_of_usize ti))])
          hall.2
        simp only [connect_args_loop, connect_source, Client.request,
          hc, List.length_append, List.length_cons, List.length_nil,
          expected_connect_trace] at hrest ⊢
        simpa [List.append_assoc] using hrest
      | other k => simp [Value.connectable] at hall
    | Boolean b => simp [Value.connectable] at hall
    | String s => simp [Value.connectable] at hall
    | Table => simp [Value.connectable] at hall
    | Function f => simp [Value.connectable] at hall

/-- C8, counterexample to the claim as stated: a boolean argument is not
`Nil` (not the "no value" marker), yet `connect_inputs_and_outputs`
neither coerces nor connects it — it fails with
`runtime("Invalid argument")` and issues no request at all — although the
§4.1 coercion (`value_to_output`) accepts the very same value by issuing
an `AddConstantBool` request. -/
theorem c8_counterexample :
    Client.connect_inputs_and_outputs mockServer 0 [.Boolean true] [] =
      (.error (.runtime ("Invalid argument")), []) ∧
    value_to_output mockServer (.Boolean true) [] =
      (.ok (0, .Index 0), [.AddConstantBool true]) :=
  ⟨rfl, rfl⟩

/-- C8 as amended: in a call to a registered procedure or to `dac`, each
`Nil` argument is skipped (no connect request for that slot) without
shifting the slot positions of later arguments, and every other argument
that is a number, an integer, or an existing node/output reference is
resolved and connected to the input slot at its 0-based position (numeric
arguments creating their constant node first); arguments of any other
kind (booleans, strings, tables, functions, foreign userdata) abort the
call with `runtime("Invalid argument")` instead of being coerced per
§4.1. -/
theorem c8_amended_connect_inputs (c : Client) (fresh : Nat → NodeIndex)
    (hf : ∀ (n : Nat) (v : F32),
      c.oracle n (.AddConstantF32 v) = .ok (.NodeIndex (fresh n)))
    (hc : ∀ (n : Nat) (src : NodeIndex) (so : NameOrIndex) (tgt : NodeIndex)
      (ti : NameOrIndex), c.oracle n (.Connect src so tgt ti) = .ok .None)
    (node : NodeIndex) (args : List Value) (sent : Trace)
    (hargs : args.all Value.connectable = true) :
    Client.connect_inputs_and_outputs c node args sent =
      (.ok { client := some c, index := node },
       sent ++ expected_connect_trace fresh node args 0 sent.length) := by
  simp [Client.connect_inputs_and_outputs,
    connect_args_loop_ok c fresh hf hc node args 0 sent hargs]

/-- Witness for the amended C8 at a concrete input: the argument list
`[Nil, 2, node 6]` against the mock server skips slot 0 and connects the
constant for 2 to slot 1 and node 6 to slot 2 — the `Nil` does not shift
later slots. -/
theorem c8_witness :
    Client.connect_inputs_and_outputs mockServer 9
        [.Nil, .Integer 2, .UserData (.node { client := none, index := 6 })] [] =
      (.ok { client := some mockServer, index := 9 },
       [.AddConstantF32 (.ofInt 2),
        .Connect 0 (.Index 0) 9 (.Index 1),
        .Connect 6 (.Index 0) 9 (.Index 2)]) := by
  have hw := c8_amended_connect_inputs mockServer (fun n => n)
    (fun _ _ => rfl) (fun _ _ _ _ _ => rfl) 9
    [.Nil, .Integer 2, .UserData (.node { client := none, index := 6 })] [] rfl
  simpa [expected_connect_trace, u32_of_usize] using hw

end RaugClientLua
